import Mathlib

/-!
Verification development for the job-offers platform backend
(job-platform-backend). The definitions below are a shallow embedding of
the authorization and application-lifecycle core:

- models/Application.js (create, findById, findByJobAndUser, updateStatus,
  createStatusNotification, bulkUpdateStatus, delete, canUserApply)
- middleware/auth.js (requireRole)
- routes/applications.js (POST /, PUT /:id/status, PUT /bulk/status,
  DELETE /:id handlers)
- the applications table of the schema (UNIQUE KEY unique_application on
  (job_offer_id, user_id)).

The MySQL store is modelled as an explicit record of lists; timestamps as
a natural-number clock (CURRENT_TIMESTAMP is the clock field of the
state); fallible operations return Except String, mirroring thrown
Error(message) values.
-/

/-- A user row; userType mirrors the user_type ENUM of the schema:
job_seeker, company or admin. -/
structure User where
  id : Nat
  userType : String
deriving DecidableEq

/-- A company row: user_id is the owning user (companies.user_id). -/
structure Company where
  id : Nat
  userId : Nat
deriving DecidableEq

/-- A job offer row: company_id is the owning company. -/
structure JobOffer where
  id : Nat
  companyId : Nat
deriving DecidableEq

/-- An application row, as selected from the applications table and wrapped
by the Application class constructor. -/
structure Application where
  id : Nat
  jobOfferId : Nat
  userId : Nat
  coverLetter : String
  resumeUrl : String
  status : String
  appliedAt : Nat
  updatedAt : Nat
deriving DecidableEq

/-- A notification row (notifications table): user_id is the recipient. -/
structure Notification where
  userId : Nat
  title : String
  message : String
  notificationType : String
deriving DecidableEq

/-- The database state. notifInsertFails models the storage layer
rejecting the INSERT INTO notifications (the error caught by
createStatusNotification); errorLog collects console.error output; now is
the value CURRENT_TIMESTAMP evaluates to. -/
structure DB where
  companies : List Company
  jobOffers : List JobOffer
  applications : List Application
  notifications : List Notification
  notifInsertFails : Bool
  errorLog : List String
  now : Nat
  nextAppId : Nat
deriving DecidableEq

/-- The validStatuses array of Application.updateStatus and
Application.bulkUpdateStatus. -/
def validStatuses : List String :=
  ["pending", "reviewed", "interview", "accepted", "rejected"]

/-- The message thrown for a status outside validStatuses. -/
def invalidStatusMsg : String :=
  "Invalid status. Must be one of: pending, reviewed, interview, accepted, rejected"

/-- Application.findById: SELECT * FROM applications WHERE id = ?. -/
def findById (db : DB) (id : Nat) : Option Application :=
  db.applications.find? (fun a => a.id == id)

/-- Application.findByJobAndUser: SELECT * FROM applications WHERE
job_offer_id = ? AND user_id = ?. -/
def findByJobAndUser (db : DB) (jobOfferId userId : Nat) : Option Application :=
  db.applications.find? (fun a => a.jobOfferId == jobOfferId && a.userId == userId)

/-- The statusMessages object of Application.createStatusNotification;
returns none for a status with no entry (e.g. pending). -/
def statusMessages (status : String) : Option String :=
  if status == "reviewed" then some "Your application has been reviewed"
  else if status == "interview" then some "You have been invited for an interview"
  else if status == "accepted" then some "Congratulations! Your application has been accepted"
  else if status == "rejected" then some "Your application has been rejected"
  else none

/-- Application.createStatusNotification: looks up the message for the
status; if none it returns without inserting; otherwise it INSERTs one
notification row for this.userId, and on an insert error it logs via
console.error and swallows the error. -/
def createStatusNotification (db : DB) (app : Application) (status : String) : DB :=
  match statusMessages status with
  | none => db
  | some message =>
    if db.notifInsertFails then
      { db with errorLog := db.errorLog ++ ["Error creating notification"] }
    else
      { db with notifications := db.notifications ++
          [{ userId := app.userId, title := "Application Status Update",
             message := message, notificationType := "application_status" }] }

/-- The row effect of UPDATE applications SET status = ?, updated_at =
CURRENT_TIMESTAMP WHERE id = ?. -/
def setStatusRow (apps : List Application) (id : Nat) (newStatus : String) (now : Nat) :
    List Application :=
  apps.map (fun a => if a.id == id then { a with status := newStatus, updatedAt := now } else a)

/-- Application.prototype.updateStatus: validates newStatus against
validStatuses (throwing otherwise), runs the UPDATE, sets
this.status = newStatus, and when updatedBy is given creates the status
notification. There is no check of the current status of the row. -/
def updateStatus (db : DB) (app : Application) (newStatus : String) (updatedBy : Option Nat) :
    Except String (DB × Application) :=
  if !(validStatuses.contains newStatus) then
    .error invalidStatusMsg
  else
    let db1 : DB := { db with applications := setStatusRow db.applications app.id newStatus db.now }
    let app1 : Application := { app with status := newStatus }
    let db2 : DB :=
      match updatedBy with
      | some _ => createStatusNotification db1 app1 newStatus
      | none => db1
    .ok (db2, app1)

/-- The notification loop of Application.bulkUpdateStatus: for each id,
findById and, when found, createStatusNotification. -/
def notifyAll (db : DB) (ids : List Nat) (newStatus : String) : DB :=
  match ids with
  | [] => db
  | i :: rest =>
    match findById db i with
    | some app => notifyAll (createStatusNotification db app newStatus) rest newStatus
    | none => notifyAll db rest newStatus

/-- Application.bulkUpdateStatus: validates newStatus, rejects an empty id
array, then runs one UPDATE ... WHERE id IN (...) over all ids and, when
updatedBy is given, creates one notification per still-existing id. It
returns no per-item result. -/
def bulkUpdateStatus (db : DB) (applicationIds : List Nat) (newStatus : String)
    (updatedBy : Option Nat) : Except String DB :=
  if !(validStatuses.contains newStatus) then
    .error invalidStatusMsg
  else if applicationIds.isEmpty then
    .error "Invalid application IDs"
  else
    let apps1 : List Application :=
      db.applications.map (fun a =>
        if applicationIds.contains a.id then { a with status := newStatus, updatedAt := db.now }
        else a)
    let db1 : DB := { db with applications := apps1 }
    let db2 : DB :=
      match updatedBy with
      | some _ => notifyAll db1 applicationIds newStatus
      | none => db1
    .ok db2

/-- The data INSERTed by Application.create. -/
structure ApplicationData where
  jobOfferId : Nat
  userId : Nat
  coverLetter : String
  resumeUrl : String
deriving DecidableEq

/-- INSERT INTO applications under the UNIQUE KEY unique_application
(job_offer_id, user_id): the insert errors when a live row with the same
pair exists, otherwise appends the new row with status pending. -/
def insertApplication (db : DB) (d : ApplicationData) : Except String (DB × Application) :=
  if (findByJobAndUser db d.jobOfferId d.userId).isSome then
    .error "Duplicate entry for key unique_application"
  else
    let app : Application :=
      { id := db.nextAppId, jobOfferId := d.jobOfferId, userId := d.userId,
        coverLetter := d.coverLetter, resumeUrl := d.resumeUrl,
        status := "pending", appliedAt := db.now, updatedAt := db.now }
    .ok ({ db with applications := db.applications ++ [app],
                   nextAppId := db.nextAppId + 1 }, app)

/-- The two sequential steps of Application.create: the existence check
(findByJobAndUser, throwing the already-applied error) runs against
dbAtCheck, and the INSERT against dbAtInsert. The two states differ
exactly when another write commits between the two awaits; the catch
around the INSERT rethrows any insert error wrapped as a generic
Error creating application message. -/
def createSteps (dbAtCheck dbAtInsert : DB) (d : ApplicationData) :
    Except String (DB × Application) :=
  match findByJobAndUser dbAtCheck d.jobOfferId d.userId with
  | some _ => .error "You have already applied for this job"
  | none =>
    match insertApplication dbAtInsert d with
    | .error msg => .error ("Error creating application: " ++ msg)
    | .ok r => .ok r

/-- Application.create as executed with no interleaved writer: the check
and the insert see the same state. -/
def Application.create (db : DB) (d : ApplicationData) : Except String (DB × Application) :=
  createSteps db db d

/-- Application.prototype.delete: DELETE FROM applications WHERE id = ?. -/
def Application.deleteRow (db : DB) (id : Nat) : DB :=
  { db with applications := db.applications.filter (fun a => a.id != id) }

/-- Application.canUserApply: true iff no application by the user for the
job exists. -/
def canUserApply (db : DB) (userId jobOfferId : Nat) : Bool :=
  (findByJobAndUser db jobOfferId userId).isNone

/-- An HTTP response as produced by the route handlers: status code,
success flag and message. -/
structure Resp where
  status : Nat
  success : Bool
  message : String
deriving DecidableEq

/-- requireRole from middleware/auth.js: 401 without an authenticated
user, 403 when the user's userType is not in the allowed roles, otherwise
passes (none). -/
def requireRole (roles : List String) (user : Option User) : Option Resp :=
  match user with
  | none => some { status := 401, success := false, message := "Authentication required" }
  | some u =>
    if !(roles.contains u.userType) then
      some { status := 403, success := false,
             message := "Access denied. Insufficient permissions" }
    else none

/-- PUT /api/applications/:id/status handler: auth, requireRole of company
or admin, require a truthy status in the body, findById (404 when
missing), then application.updateStatus(status, req.user.id); a thrown
lifecycle error becomes a 400. There is no ownership check. -/
def updateApplicationStatusHandler (db : DB) (user : User) (appId : Nat)
    (bodyStatus : Option String) : DB × Resp :=
  match requireRole ["company", "admin"] (some user) with
  | some r => (db, r)
  | none =>
    let s := bodyStatus.getD ""
    if s == "" then
      (db, { status := 400, success := false, message := "Status is required" })
    else
      match findById db appId with
      | none => (db, { status := 404, success := false, message := "Application not found" })
      | some app =>
        match updateStatus db app s (some user.id) with
        | .ok (db1, _) =>
          (db1, { status := 200, success := true,
                  message := "Application status updated successfully" })
        | .error e => (db, { status := 400, success := false, message := e })

/-- The request body of POST /api/applications: the client may supply a
userId field, which the handler overwrites. -/
structure CreateBody where
  jobOfferId : Nat
  userId : Option Nat
  coverLetter : String
  resumeUrl : String
deriving DecidableEq

/-- POST /api/applications handler: auth, requireRole of job_seeker only,
then Application.create over the body spread with userId replaced by
req.user.id; errors become a 400. -/
def createApplicationHandler (db : DB) (user : User) (body : CreateBody) : DB × Resp :=
  match requireRole ["job_seeker"] (some user) with
  | some r => (db, r)
  | none =>
    let d : ApplicationData :=
      { jobOfferId := body.jobOfferId, userId := user.id,
        coverLetter := body.coverLetter, resumeUrl := body.resumeUrl }
    match Application.create db d with
    | .ok (db1, _) =>
      (db1, { status := 201, success := true, message := "Application submitted successfully" })
    | .error e => (db, { status := 400, success := false, message := e })

/-- DELETE /api/applications/:id handler: auth, requireRole of job_seeker
only, findById (404 when missing), owner check (403 when the application's
userId differs from req.user.id), then the row delete. -/
def deleteApplicationHandler (db : DB) (user : User) (appId : Nat) : DB × Resp :=
  match requireRole ["job_seeker"] (some user) with
  | some r => (db, r)
  | none =>
    match findById db appId with
    | none => (db, { status := 404, success := false, message := "Application not found" })
    | some app =>
      if app.userId != user.id then
        (db, { status := 403, success := false, message := "Access denied" })
      else
        (Application.deleteRow db appId,
         { status := 200, success := true, message := "Application deleted successfully" })

/-- PUT /api/applications/bulk/status handler: auth, requireRole of
company or admin, requires a non-empty applicationIds array and a truthy
status, then Application.bulkUpdateStatus(ids, status, req.user.id);
errors become a 400. -/
def bulkUpdateApplicationStatusHandler (db : DB) (user : User)
    (bodyIds : Option (List Nat)) (bodyStatus : Option String) : DB × Resp :=
  match requireRole ["company", "admin"] (some user) with
  | some r => (db, r)
  | none =>
    match bodyIds with
    | none => (db, { status := 400, success := false, message := "Application IDs are required" })
    | some ids =>
      if ids.isEmpty then
        (db, { status := 400, success := false, message := "Application IDs are required" })
      else
        let s := bodyStatus.getD ""
        if s == "" then
          (db, { status := 400, success := false, message := "Status is required" })
        else
          match bulkUpdateStatus db ids s (some user.id) with
          | .ok db1 =>
            (db1, { status := 200, success := true,
                    message := "Applications updated successfully" })
          | .error e => (db, { status := 400, success := false, message := e })

/-- The ownership chain Application to JobOffer to Company to owning
User, as joined in the schema (job_offers.company_id, companies.user_id):
true iff the user owns the company that owns the job offer the
application references. -/
def ownsJobOfferOfApp (db : DB) (user : User) (app : Application) : Bool :=
  match db.jobOffers.find? (fun j => j.id == app.jobOfferId) with
  | none => false
  | some j =>
    match db.companies.find? (fun c => c.id == j.companyId) with
    | none => false
    | some c => c.userId == user.id

/-- At most one application row per (jobOfferId, userId) pair. -/
def uniquePairs (db : DB) : Prop :=
  List.Pairwise (fun a b => a.jobOfferId ≠ b.jobOfferId ∨ a.userId ≠ b.userId) db.applications

/-- createStatusNotification only touches notifications and errorLog. -/
theorem csn_preserves (db : DB) (app : Application) (s : String) :
    (createStatusNotification db app s).applications = db.applications ∧
    (createStatusNotification db app s).now = db.now := by
  unfold createStatusNotification
  split
  case _ => exact ⟨rfl, rfl⟩
  case _ => split <;> exact ⟨rfl, rfl⟩

/-- notifyAll only touches notifications and errorLog. -/
theorem notifyAll_preserves (ids : List Nat) :
    ∀ db s, (notifyAll db ids s).applications = db.applications ∧
      (notifyAll db ids s).now = db.now := by
  induction ids with
  | nil => intro db s; exact ⟨rfl, rfl⟩
  | cons i rest ih =>
    intro db s
    unfold notifyAll
    cases h : findById db i with
    | none => simpa using ih db s
    | some app =>
      have h1 := ih (createStatusNotification db app s) s
      have h2 := csn_preserves db app s
      simp only [h1.1, h1.2, h2.1, h2.2]
      exact ⟨trivial, trivial⟩

/-- Rewriting a row by id and then finding by the same id yields the
rewritten row. -/
theorem find?_setStatusRow (l : List Application) (id : Nat) (s : String) (now : Nat) :
    (setStatusRow l id s now).find? (fun a => a.id == id) =
      (l.find? (fun a => a.id == id)).map
        (fun a => { a with status := s, updatedAt := now }) := by
  induction l with
  | nil => rfl
  | cons a as ih =>
    cases h : a.id == id with
    | true => simp [setStatusRow, List.find?, h]
    | false => simpa [setStatusRow, List.find?, h] using ih

def c1rep : User := { id := 10, userType := "company" }

def c1app : Application :=
  { id := 7, jobOfferId := 5, userId := 30, coverLetter := "c", resumeUrl := "r",
    status := "pending", appliedAt := 0, updatedAt := 0 }

def c1db : DB :=
  { companies := [{ id := 1, userId := 10 }, { id := 2, userId := 20 }],
    jobOffers := [{ id := 5, companyId := 2 }],
    applications := [c1app],
    notifications := [], notifInsertFails := false, errorLog := [], now := 9, nextAppId := 8 }

/-- C1: counterexample. -/
theorem C1_counterexample :
    c1rep.userType = "company" ∧
    ownsJobOfferOfApp c1db c1rep c1app = false ∧
    findById c1db 7 = some c1app ∧
    (updateApplicationStatusHandler c1db c1rep 7 (some "reviewed")).2.status = 200 ∧
    (findById (updateApplicationStatusHandler c1db c1rep 7 (some "reviewed")).1 7).map
      (fun a => a.status) = some "reviewed" := by
  refine ⟨rfl, by decide, by decide, by decide, by decide⟩

/-- C1: amended. -/
theorem C1_update_status_checks_role_only (db : DB) (user : User) (appId : Nat)
    (app : Application) (s : String)
    (hrole : user.userType = "company")
    (hfind : findById db appId = some app)
    (hs : validStatuses.contains s = true)
    (hsne : (s == "") = false) :
    (updateApplicationStatusHandler db user appId (some s)).2.status = 200 ∧
    findById (updateApplicationStatusHandler db user appId (some s)).1 appId =
      some { app with status := s, updatedAt := db.now } := by
  have hrr : requireRole ["company", "admin"] (some user) = none := by
    simp [requireRole, hrole]
  have hfind2 : db.applications.find? (fun a => a.id == appId) = some app := hfind
  have hid := List.find?_some hfind2
  have hideq : app.id = appId := by simpa using hid
  unfold updateApplicationStatusHandler
  rw [hrr]
  simp only [Option.getD, hsne, Bool.false_eq_true, if_false, hfind]
  unfold updateStatus
  simp only [hs, Bool.not_true, Bool.false_eq_true, if_false]
  constructor
  · trivial
  · show findById (createStatusNotification _ _ _) appId = _
    unfold findById
    rw [(csn_preserves _ _ _).1]
    show (setStatusRow db.applications app.id s db.now).find? _ = _
    rw [hideq, find?_setStatusRow]
    unfold findById at hfind
    rw [hfind]
    simp [hideq]

/-- C1 witness. -/
theorem C1_update_status_checks_role_only_witness :
    (updateApplicationStatusHandler c1db c1rep 7 (some "interview")).2.status = 200 ∧
    findById (updateApplicationStatusHandler c1db c1rep 7 (some "interview")).1 7 =
      some { c1app with status := "interview", updatedAt := c1db.now } :=
  C1_update_status_checks_role_only c1db c1rep 7 c1app "interview" rfl (by decide) (by decide)
    (by decide)

def c2app : Application :=
  { id := 1, jobOfferId := 2, userId := 3, coverLetter := "c", resumeUrl := "r",
    status := "accepted", appliedAt := 0, updatedAt := 0 }

def c2db : DB :=
  { companies := [], jobOffers := [], applications := [c2app],
    notifications := [], notifInsertFails := false, errorLog := [], now := 5, nextAppId := 2 }

/-- C2 counterexample. -/
theorem C2_counterexample :
    c2app.status = "accepted" ∧
    updateStatus c2db c2app "pending" none =
      Except.ok ({ c2db with applications := [{ c2app with status := "pending", updatedAt := 5 }] },
        { c2app with status := "pending" }) :=
  ⟨rfl, by rfl⟩

/-- C2 amended. -/
theorem C2_terminal_any_to_any (db : DB) (app : Application) (s : String) (ub : Option Nat)
    (_hterm : app.status = "accepted" ∨ app.status = "rejected")
    (hs : validStatuses.contains s = true) :
    ∃ p, updateStatus db app s ub = Except.ok p ∧ p.2 = { app with status := s } ∧
      findById p.1 app.id =
        (findById db app.id).map (fun a => { a with status := s, updatedAt := db.now }) := by
  unfold updateStatus
  simp only [hs, Bool.not_true, Bool.false_eq_true, if_false]
  cases ub with
  | none =>
    refine ⟨_, rfl, rfl, ?_⟩
    unfold findById
    show (setStatusRow db.applications app.id s db.now).find? _ = _
    rw [find?_setStatusRow]
  | some u =>
    refine ⟨_, rfl, rfl, ?_⟩
    unfold findById
    rw [(csn_preserves _ _ _).1]
    show (setStatusRow db.applications app.id s db.now).find? _ = _
    rw [find?_setStatusRow]

/-- C2 witness. -/
theorem C2_terminal_any_to_any_witness :
    ∃ p, updateStatus c2db c2app "pending" none = Except.ok p ∧
      p.2 = { c2app with status := "pending" } ∧
      findById p.1 c2app.id =
        (findById c2db c2app.id).map
          (fun a => { a with status := "pending", updatedAt := c2db.now }) :=
  C2_terminal_any_to_any c2db c2app "pending" none (Or.inl rfl) (by decide)

/-- The single UPDATE sweep of bulkUpdateStatus is idempotent on rows. -/
theorem bulkMap_idem (l : List Application) (ids : List Nat) (s : String) (n : Nat) :
    (l.map (fun a => if ids.contains a.id then { a with status := s, updatedAt := n } else a)).map
      (fun a => if ids.contains a.id then { a with status := s, updatedAt := n } else a) =
    l.map (fun a => if ids.contains a.id then { a with status := s, updatedAt := n } else a) := by
  induction l with
  | nil => rfl
  | cons a as ih =>
    simp only [List.map_cons, ih]
    congr 1
    by_cases h : ids.contains a.id = true
    · rw [if_pos h]
      dsimp only
      rw [if_pos h]
    · rw [if_neg h]
      rw [if_neg h]

def c3user : User := { id := 99, userType := "company" }

def c3app1 : Application :=
  { id := 1, jobOfferId := 4, userId := 31, coverLetter := "c", resumeUrl := "r",
    status := "pending", appliedAt := 0, updatedAt := 0 }

def c3app2 : Application :=
  { id := 2, jobOfferId := 4, userId := 32, coverLetter := "c", resumeUrl := "r",
    status := "accepted", appliedAt := 0, updatedAt := 0 }

def c3db : DB :=
  { companies := [], jobOffers := [{ id := 4, companyId := 1 }],
    applications := [c3app1, c3app2],
    notifications := [], notifInsertFails := false, errorLog := [], now := 7, nextAppId := 3 }

/-- C3 counterexample. -/
theorem C3_counterexample :
    c3app2.status = "accepted" ∧
    (bulkUpdateApplicationStatusHandler c3db c3user (some [1, 2]) (some "rejected")).2 =
      { status := 200, success := true, message := "Applications updated successfully" } ∧
    (findById (bulkUpdateApplicationStatusHandler c3db c3user (some [1, 2])
        (some "rejected")).1 2).map (fun a => a.status) = some "rejected" :=
  ⟨rfl, by rfl, by rfl⟩

/-- C3 amended. -/
theorem C3_bulk_single_sweep (db : DB) (ids : List Nat) (s : String) (ub : Option Nat)
    (hs : validStatuses.contains s = true)
    (hne : ids.isEmpty = false) :
    ∃ db1, bulkUpdateStatus db ids s ub = Except.ok db1 ∧
      db1.applications = db.applications.map (fun a =>
        if ids.contains a.id then { a with status := s, updatedAt := db.now } else a) ∧
      ∃ db2, bulkUpdateStatus db1 ids s ub = Except.ok db2 ∧
        db2.applications = db1.applications := by
  unfold bulkUpdateStatus
  simp only [hs, Bool.not_true, Bool.false_eq_true, if_false, hne]
  cases ub with
  | none =>
    refine ⟨_, rfl, rfl, _, rfl, ?_⟩
    exact bulkMap_idem db.applications ids s db.now
  | some u =>
    refine ⟨_, rfl, (notifyAll_preserves ids _ s).1, _, rfl, ?_⟩
    rw [(notifyAll_preserves ids _ s).1, (notifyAll_preserves ids _ s).1]
    show (_ : List Application).map _ = _
    rw [(notifyAll_preserves ids _ s).2]
    exact bulkMap_idem db.applications ids s db.now

/-- C3 witness. -/
theorem C3_bulk_single_sweep_witness :
    ∃ db1, bulkUpdateStatus c3db [1, 2] "rejected" (some 99) = Except.ok db1 ∧
      db1.applications = c3db.applications.map (fun a =>
        if [1, 2].contains a.id then { a with status := "rejected", updatedAt := c3db.now }
        else a) ∧
      ∃ db2, bulkUpdateStatus db1 [1, 2] "rejected" (some 99) = Except.ok db2 ∧
        db2.applications = db1.applications :=
  C3_bulk_single_sweep c3db [1, 2] "rejected" (some 99) (by decide) (by decide)

def c4data : ApplicationData :=
  { jobOfferId := 4, userId := 31, coverLetter := "c", resumeUrl := "r" }

def c4db0 : DB :=
  { companies := [], jobOffers := [{ id := 4, companyId := 1 }], applications := [],
    notifications := [], notifInsertFails := false, errorLog := [], now := 1, nextAppId := 1 }

def c4dbMid : DB :=
  { c4db0 with
    applications := [{ id := 1, jobOfferId := 4, userId := 31, coverLetter := "x",
                       resumeUrl := "y", status := "pending", appliedAt := 1, updatedAt := 1 }],
    nextAppId := 2 }

/-- C4 counterexample. -/
theorem C4_counterexample :
    findByJobAndUser c4db0 4 31 = none ∧
    createSteps c4db0 c4dbMid c4data =
      Except.error "Error creating application: Duplicate entry for key unique_application" ∧
    "Error creating application: Duplicate entry for key unique_application" ≠
      "You have already applied for this job" :=
  ⟨rfl, by rfl, by decide⟩

/-- C4 amended. -/
theorem C4_unique_create (db : DB) (d : ApplicationData) (hu : uniquePairs db) :
    ((findByJobAndUser db d.jobOfferId d.userId).isSome = true →
      Application.create db d = Except.error "You have already applied for this job") ∧
    (∀ db1 app, Application.create db d = Except.ok (db1, app) → uniquePairs db1) := by
  constructor
  · intro h
    unfold Application.create createSteps
    cases hf : findByJobAndUser db d.jobOfferId d.userId with
    | none => rw [hf] at h; simp at h
    | some a => rfl
  · intro db1 app h
    unfold Application.create createSteps at h
    cases hf : findByJobAndUser db d.jobOfferId d.userId with
    | some a => rw [hf] at h; simp at h
    | none =>
      rw [hf] at h
      unfold insertApplication at h
      rw [hf] at h
      simp only [Option.isSome_none, Bool.false_eq_true, if_false, Except.ok.injEq,
        Prod.mk.injEq] at h
      obtain ⟨h1, h2⟩ := h
      subst h1
      unfold uniquePairs
      show List.Pairwise _ (db.applications ++ [_])
      rw [List.pairwise_append]
      refine ⟨hu, List.pairwise_singleton _ _, ?_⟩
      intro a ha b hb
      simp only [List.mem_singleton] at hb
      subst hb
      have hnone := List.find?_eq_none.mp hf a ha
      simp only [Bool.and_eq_true, beq_iff_eq, not_and] at hnone
      by_cases hj : a.jobOfferId = d.jobOfferId
      · exact Or.inr (fun huid => hnone hj huid)
      · exact Or.inl hj

/-- C4 witness. -/
theorem C4_unique_create_witness :
    Application.create c4dbMid c4data = Except.error "You have already applied for this job" ∧
    uniquePairs { c4db0 with
      applications := [{ id := 1, jobOfferId := 4, userId := 31, coverLetter := "c",
                         resumeUrl := "r", status := "pending", appliedAt := 1, updatedAt := 1 }],
      nextAppId := 2 } :=
  ⟨(C4_unique_create c4dbMid c4data (by unfold uniquePairs; decide)).1 (by decide),
   (C4_unique_create c4db0 c4data (by unfold uniquePairs; decide)).2
     { c4db0 with
       applications := [{ id := 1, jobOfferId := 4, userId := 31, coverLetter := "c",
                          resumeUrl := "r", status := "pending", appliedAt := 1, updatedAt := 1 }],
       nextAppId := 2 }
     { id := 1, jobOfferId := 4, userId := 31, coverLetter := "c", resumeUrl := "r",
       status := "pending", appliedAt := 1, updatedAt := 1 }
     (by rfl)⟩

/-- The notification row INSERTed for a status change. -/
def statusNotification (recipient : Nat) (m : String) : Notification :=
  { userId := recipient, title := "Application Status Update", message := m,
    notificationType := "application_status" }

/-- Notification append when the status has a message and the insert works. -/
theorem csn_notifications_some (db : DB) (app : Application) (s m : String)
    (hm : statusMessages s = some m) (hok : db.notifInsertFails = false) :
    (createStatusNotification db app s).notifications =
      db.notifications ++ [statusNotification app.userId m] := by
  unfold createStatusNotification statusNotification
  rw [hm]
  simp [hok]

/-- No notification is attempted for a status with no message entry. -/
theorem csn_notifications_none (db : DB) (app : Application) (s : String)
    (hm : statusMessages s = none) :
    (createStatusNotification db app s).notifications = db.notifications := by
  unfold createStatusNotification
  rw [hm]

/-- The status-update handler path, reduced to the notification step. -/
theorem handler_reduces (db : DB) (user : User) (appId : Nat) (app : Application) (s : String)
    (hrr : requireRole ["company", "admin"] (some user) = none)
    (hfind : findById db appId = some app)
    (hs : validStatuses.contains s = true) (hsne : (s == "") = false) :
    (updateApplicationStatusHandler db user appId (some s)).1 =
      createStatusNotification
        { db with applications := setStatusRow db.applications app.id s db.now }
        { app with status := s } s := by
  unfold updateApplicationStatusHandler
  rw [hrr]
  simp only [Option.getD, hsne, Bool.false_eq_true, if_false, hfind]
  unfold updateStatus
  simp only [hs, Bool.not_true, Bool.false_eq_true, if_false]

/-- C5. -/
theorem C5_notified_applicant_keyed (db : DB) (user : User) (appId : Nat)
    (app : Application) (s : String)
    (hrole : user.userType = "company" ∨ user.userType = "admin")
    (hfind : findById db appId = some app)
    (hok : db.notifInsertFails = false) :
    ((s = "reviewed" ∨ s = "interview" ∨ s = "accepted" ∨ s = "rejected") →
      ∃ m, statusMessages s = some m ∧
        (updateApplicationStatusHandler db user appId (some s)).1.notifications =
          db.notifications ++ [statusNotification app.userId m]) ∧
    (s = "pending" →
      (updateApplicationStatusHandler db user appId (some s)).1.notifications =
        db.notifications) := by
  have hrr : requireRole ["company", "admin"] (some user) = none := by
    cases hrole with
    | inl h => simp [requireRole, h]
    | inr h => simp [requireRole, h]
  constructor
  · intro hs4
    have hs : validStatuses.contains s = true := by
      rcases hs4 with h | h | h | h <;> subst h <;> decide
    have hsne : (s == "") = false := by
      rcases hs4 with h | h | h | h <;> subst h <;> decide
    have hm : ∃ m, statusMessages s = some m := by
      rcases hs4 with h | h | h | h <;> subst h <;> exact ⟨_, rfl⟩
    obtain ⟨m, hm⟩ := hm
    refine ⟨m, hm, ?_⟩
    rw [handler_reduces db user appId app s hrr hfind hs hsne]
    exact csn_notifications_some _ _ s m hm hok
  · intro hp
    subst hp
    rw [handler_reduces db user appId app "pending" hrr hfind (by decide) (by decide)]
    exact csn_notifications_none _ _ "pending" (by decide)

/-- C5 witness. -/
theorem C5_notified_applicant_keyed_witness :
    ∃ m, statusMessages "accepted" = some m ∧
      (updateApplicationStatusHandler c3db c3user 1 (some "accepted")).1.notifications =
        c3db.notifications ++ [statusNotification c3app1.userId m] :=
  (C5_notified_applicant_keyed c3db c3user 1 c3app1 "accepted" (Or.inl rfl) (by decide) rfl).1
    (Or.inr (Or.inr (Or.inl rfl)))

def c6admin : User := { id := 50, userType := "admin" }

def c6body : CreateBody :=
  { jobOfferId := 4, userId := some 3, coverLetter := "c", resumeUrl := "r" }

/-- The 403 response of requireRole. -/
def insufficientResp : Resp :=
  { status := 403, success := false, message := "Access denied. Insufficient permissions" }

/-- C6 counterexample. -/
theorem C6_counterexample :
    c6admin.userType = "admin" ∧
    createApplicationHandler c3db c6admin c6body = (c3db, insufficientResp) ∧
    deleteApplicationHandler c3db c6admin 1 = (c3db, insufficientResp) :=
  ⟨rfl, by rfl, by rfl⟩

/-- C6 amended. -/
theorem C6_admin_role_gates (db : DB) (user : User) (body : CreateBody) (appId : Nat)
    (h : user.userType = "admin") :
    requireRole ["company", "admin"] (some user) = none ∧
    createApplicationHandler db user body = (db, insufficientResp) ∧
    deleteApplicationHandler db user appId = (db, insufficientResp) := by
  have h2 : requireRole ["job_seeker"] (some user) = some insufficientResp := by
    simp [requireRole, insufficientResp, h]
  refine ⟨by simp [requireRole, h], ?_, ?_⟩
  · unfold createApplicationHandler
    rw [h2]
  · unfold deleteApplicationHandler
    rw [h2]

/-- C6 witness. -/
theorem C6_admin_role_gates_witness :
    requireRole ["company", "admin"] (some c6admin) = none ∧
    createApplicationHandler c3db c6admin c6body = (c3db, insufficientResp) ∧
    deleteApplicationHandler c3db c6admin 2 = (c3db, insufficientResp) :=
  C6_admin_role_gates c3db c6admin c6body 2 rfl

/-- A failing notification insert only appends to the error log. -/
theorem csn_fail (db : DB) (app : Application) (s m : String)
    (hm : statusMessages s = some m) (hfail : db.notifInsertFails = true) :
    createStatusNotification db app s =
      { db with errorLog := db.errorLog ++ ["Error creating notification"] } := by
  unfold createStatusNotification
  rw [hm]
  dsimp only
  rw [hfail]
  rfl

/-- C7. -/
theorem C7_notify_failure_swallowed (db : DB) (app : Application) (s : String) (uid : Nat)
    (hfail : db.notifInsertFails = true)
    (hs : validStatuses.contains s = true)
    (hm : (statusMessages s).isSome = true) :
    ∃ db1, updateStatus db app s (some uid) = Except.ok (db1, { app with status := s }) ∧
      db1.applications = setStatusRow db.applications app.id s db.now ∧
      db1.notifications = db.notifications ∧
      db1.errorLog = db.errorLog ++ ["Error creating notification"] := by
  obtain ⟨m, hm2⟩ := Option.isSome_iff_exists.mp hm
  have hcsn := csn_fail
    { db with applications := setStatusRow db.applications app.id s db.now }
    { app with status := s } s m hm2 hfail
  unfold updateStatus
  simp only [hs, Bool.not_true, Bool.false_eq_true, if_false]
  refine ⟨_, rfl, ?_, ?_, ?_⟩ <;> rw [hcsn]

def c7db : DB :=
  { companies := [], jobOffers := [{ id := 4, companyId := 1 }],
    applications := [c3app1],
    notifications := [], notifInsertFails := true, errorLog := [], now := 7, nextAppId := 3 }

/-- C7 witness. -/
theorem C7_notify_failure_swallowed_witness :
    ∃ db1, updateStatus c7db c3app1 "reviewed" (some 99) =
      Except.ok (db1, { c3app1 with status := "reviewed" }) ∧
      db1.applications = setStatusRow c7db.applications c3app1.id "reviewed" c7db.now ∧
      db1.notifications = c7db.notifications ∧
      db1.errorLog = c7db.errorLog ++ ["Error creating notification"] :=
  C7_notify_failure_swallowed c7db c3app1 "reviewed" 99 rfl (by decide) (by decide)

def c8user : User := { id := 31, userType := "job_seeker" }

def c8body : CreateBody :=
  { jobOfferId := 4, userId := none, coverLetter := "c", resumeUrl := "r" }

/-- C8 counterexample. -/
theorem C8_counterexample :
    (createApplicationHandler c4db0 c8user c8body).2.status = 201 ∧
    (deleteApplicationHandler (createApplicationHandler c4db0 c8user c8body).1
      c8user 1).2.status = 200 ∧
    (createApplicationHandler (deleteApplicationHandler
      (createApplicationHandler c4db0 c8user c8body).1 c8user 1).1
      c8user c8body).2.status = 201 :=
  ⟨by rfl, by rfl, by rfl⟩

/-- C8 amended. -/
theorem C8_reapply_after_delete (db : DB) (d : ApplicationData) (app : Application)
    (hfind : findByJobAndUser db d.jobOfferId d.userId = some app)
    (hafter : findByJobAndUser (Application.deleteRow db app.id) d.jobOfferId d.userId = none) :
    Application.create db d = Except.error "You have already applied for this job" ∧
    ∃ db1 app1, Application.create (Application.deleteRow db app.id) d = Except.ok (db1, app1) ∧
      app1.jobOfferId = d.jobOfferId ∧ app1.userId = d.userId := by
  constructor
  · unfold Application.create createSteps
    rw [hfind]
  · unfold Application.create createSteps insertApplication
    rw [hafter]
    simp only [Option.isSome_none, Bool.false_eq_true, if_false]
    exact ⟨_, _, rfl, rfl, rfl⟩

/-- C8 witness. -/
theorem C8_reapply_after_delete_witness :
    Application.create c4dbMid c4data = Except.error "You have already applied for this job" ∧
    ∃ db1 app1, Application.create (Application.deleteRow c4dbMid 1) c4data =
      Except.ok (db1, app1) ∧
      app1.jobOfferId = c4data.jobOfferId ∧ app1.userId = c4data.userId :=
  C8_reapply_after_delete c4dbMid c4data
    { id := 1, jobOfferId := 4, userId := 31, coverLetter := "x", resumeUrl := "y",
      status := "pending", appliedAt := 1, updatedAt := 1 }
    (by decide) (by decide)

/-- C9. -/
theorem C9_status_validation (db : DB) (app : Application) (ids : List Nat) (s : String)
    (ub : Option Nat) :
    (validStatuses.contains s = false →
      updateStatus db app s ub = Except.error invalidStatusMsg ∧
      bulkUpdateStatus db ids s ub = Except.error invalidStatusMsg) ∧
    (validStatuses.contains s = true → ids.isEmpty = true →
      bulkUpdateStatus db ids s ub = Except.error "Invalid application IDs") ∧
    (validStatuses.contains s = true → ids.isEmpty = false →
      ∃ db1, bulkUpdateStatus db ids s ub = Except.ok db1) := by
  refine ⟨fun h => ⟨?_, ?_⟩, fun hs he => ?_, fun hs he => ?_⟩
  · unfold updateStatus
    rw [h]
    rfl
  · unfold bulkUpdateStatus
    rw [h]
    rfl
  · unfold bulkUpdateStatus
    rw [hs, he]
    rfl
  · unfold bulkUpdateStatus
    rw [hs, he]
    exact ⟨_, rfl⟩

/-- C9 witness. -/
theorem C9_status_validation_witness :
    (updateStatus c3db c3app1 "archived" none = Except.error invalidStatusMsg ∧
      bulkUpdateStatus c3db [1] "archived" none = Except.error invalidStatusMsg) ∧
    bulkUpdateStatus c3db ([] : List Nat) "reviewed" none =
      Except.error "Invalid application IDs" ∧
    ∃ db1, bulkUpdateStatus c3db [1] "reviewed" none = Except.ok db1 :=
  ⟨(C9_status_validation c3db c3app1 [1] "archived" none).1 (by decide),
   (C9_status_validation c3db c3app1 [] "reviewed" none).2.1 (by decide) (by decide),
   (C9_status_validation c3db c3app1 [1] "reviewed" none).2.2 (by decide) (by decide)⟩

/-- C10. -/
theorem C10_applicant_from_actor (db : DB) (user : User) (b1 b2 : CreateBody)
    (hj : b1.jobOfferId = b2.jobOfferId) (hc : b1.coverLetter = b2.coverLetter)
    (hr : b1.resumeUrl = b2.resumeUrl) :
    createApplicationHandler db user b1 = createApplicationHandler db user b2 ∧
    ∀ db1 app, Application.create db
      ⟨b1.jobOfferId, user.id, b1.coverLetter, b1.resumeUrl⟩ = Except.ok (db1, app) →
      app.userId = user.id := by
  constructor
  · cases b1 with
    | mk j u1 c r =>
      cases b2 with
      | mk j2 u2 c2 r2 =>
        dsimp only at hj hc hr
        subst hj
        subst hc
        subst hr
        rfl
  · intro db1 app h
    unfold Application.create createSteps insertApplication at h
    dsimp only at h
    cases hf : findByJobAndUser db b1.jobOfferId user.id with
    | some a =>
      rw [hf] at h
      simp at h
    | none =>
      rw [hf] at h
      simp only [Option.isSome_none, Bool.false_eq_true, if_false, Except.ok.injEq,
        Prod.mk.injEq] at h
      obtain ⟨h1, h2⟩ := h
      subst h2
      rfl

/-- C10 witness. -/
theorem C10_applicant_from_actor_witness :
    createApplicationHandler c4db0 c8user
        { jobOfferId := 4, userId := none, coverLetter := "c", resumeUrl := "r" } =
      createApplicationHandler c4db0 c8user
        { jobOfferId := 4, userId := some 77, coverLetter := "c", resumeUrl := "r" } ∧
    ({ id := 1, jobOfferId := 4, userId := 31, coverLetter := "c", resumeUrl := "r",
       status := "pending", appliedAt := 1, updatedAt := 1 } : Application).userId = c8user.id :=
  ⟨(C10_applicant_from_actor c4db0 c8user
      { jobOfferId := 4, userId := none, coverLetter := "c", resumeUrl := "r" }
      { jobOfferId := 4, userId := some 77, coverLetter := "c", resumeUrl := "r" }
      rfl rfl rfl).1,
   (C10_applicant_from_actor c4db0 c8user
      { jobOfferId := 4, userId := none, coverLetter := "c", resumeUrl := "r" }
      { jobOfferId := 4, userId := some 77, coverLetter := "c", resumeUrl := "r" }
      rfl rfl rfl).2
     { c4db0 with
       applications := [{ id := 1, jobOfferId := 4, userId := 31, coverLetter := "c",
                          resumeUrl := "r", status := "pending", appliedAt := 1, updatedAt := 1 }],
       nextAppId := 2 }
     { id := 1, jobOfferId := 4, userId := 31, coverLetter := "c", resumeUrl := "r",
       status := "pending", appliedAt := 1, updatedAt := 1 }
     (by rfl)⟩
